import Mathlib

/-!
Shallow embedding of the state-management core of the Gestor application
(src/index.tsx): the entity model, the Store's setState discipline, the
snapshot subsystem, the backup import/export path, the financial totals
calculator, the client-delete referential-integrity guard, the transaction
form handler, and the wipe-all-data operation.

Conventions of the embedding:
* JS strings are Lean `String`; the JS string operations `trim` and
  `startsWith` used by the code are modelled explicitly on the character
  list (`jsTrim`, `jsStartsWith`) so that they are kernel-computable.
* JS numbers holding monetary amounts are modelled as `Int` (exact
  arithmetic; the sign and summation properties at issue are independent
  of fractional precision).
* `localStorage` is modelled structurally: the two keys used by the code,
  `gestor_app_state` and `gestor_app_snapshots`, become the two fields of
  `Storage`, and `JSON.stringify`/`JSON.parse` round-trips on well-formed
  values are identified with the stored structural value.
* `Date.now()` is passed in as an explicit `now : Nat` parameter.
* User confirmation dialogs become a `confirmed : Bool` parameter; an
  error alert shown by the code is reported as a `some` value of
  `AppError` in the handler's result, following the spec's taxonomy
  (invalid-backup alert = validationError, blocked-client-delete alert =
  referentialIntegrityError); handlers that show no alert and change
  nothing report `none`.
-/

namespace Gestor

/-- Transaction type: `receita` (revenue) or `despesa` (expense),
from the `type` field of the `Transaction` interface. -/
inductive TxType where
  | receita
  | despesa
deriving DecidableEq, Repr

/-- A financial transaction, from the `Transaction` interface:
id, description, signed amount, date string `YYYY-MM-DD`, and type. -/
structure Transaction where
  id : String
  description : String
  amount : Int
  date : String
  type : TxType
deriving DecidableEq, Repr

/-- A client record, from the `Client` interface. -/
structure Client where
  id : String
  name : String
  company : String
  email : String
  phone : String
deriving DecidableEq, Repr

/-- Pipeline stages of an opportunity, from the `OpportunityStage` type. -/
inductive OpportunityStage where
  | lead
  | proposta
  | negociacao
  | ganho
  | perdido
deriving DecidableEq, Repr

/-- A sales opportunity, from the `Opportunity` interface. -/
structure Opportunity where
  id : String
  title : String
  value : Int
  clientId : String
  stage : OpportunityStage
deriving DecidableEq, Repr

/-- The whole application state, from the `AppState` interface:
the triple of transactions, clients and opportunities. -/
structure AppState where
  transactions : List Transaction
  clients : List Client
  opportunities : List Opportunity
deriving DecidableEq, Repr

/-- A snapshot, from the `Snapshot` interface: id, user-supplied name,
creation timestamp, and an embedded copy of the state. -/
structure Snapshot where
  id : String
  name : String
  timestamp : Nat
  data : AppState
deriving DecidableEq, Repr

/-- Error taxonomy from the spec, used to report which error alert
(if any) a handler surfaces. -/
inductive AppError where
  | validationError
  | notFoundError
  | referentialIntegrityError
deriving DecidableEq, Repr

/-- Structural model of the browser `localStorage` slice the code uses:
field `appStateKey` is the value stored under the key
`gestor_app_state`, field `snapshotsKey` the value stored under
`gestor_app_snapshots` (`none` = key absent). -/
structure Storage where
  appStateKey : Option AppState
  snapshotsKey : Option (List Snapshot)
deriving DecidableEq, Repr

/-- The mutable fields of the `GestorApp` class that the core
operates on: the live state, the snapshot collection, and the
persisted storage. -/
structure GestorModel where
  state : AppState
  snapshots : List Snapshot
  storage : Storage
deriving DecidableEq, Repr

/-- Characters treated as whitespace by the JS `trim` used on form
inputs (the inputs at issue contain no exotic Unicode whitespace). -/
def jsWhitespace (c : Char) : Bool :=
  c == ' ' || c == '\t' || c == '\n' || c == '\r'

/-- Model of `String.prototype.trim`, computed on the character list. -/
def jsTrim (s : String) : String :=
  String.mk (((s.data.dropWhile jsWhitespace).reverse.dropWhile jsWhitespace).reverse)

/-- Model of `s.startsWith(p)` from JS, computed on the character lists. -/
def jsStartsWith (s p : String) : Bool :=
  p.data.isPrefixOf s.data

/-- `getInitialState` from the source: the canonical empty state. -/
def getInitialState : AppState :=
  { transactions := [], clients := [], opportunities := [] }

/-- `saveState` from the source: `localStorage.setItem('gestor_app_state',
JSON.stringify(this.state))`, modelled as storing the structural value. -/
def saveState (m : GestorModel) : GestorModel :=
  { m with storage := { m.storage with appStateKey := some m.state } }

/-- `saveSnapshots` from the source: `localStorage.setItem(
'gestor_app_snapshots', JSON.stringify(this.snapshots))`. -/
def saveSnapshots (m : GestorModel) : GestorModel :=
  { m with storage := { m.storage with snapshotsKey := some m.snapshots } }

/-- `setState` from the source: `this.state = updater(this.state);
this.saveState(); this.navigateTo(...)` — the re-render has no effect
on the core state. -/
def setState (m : GestorModel) (updater : AppState → AppState) : GestorModel :=
  saveState { m with state := updater m.state }

/-- Model of `JSON.parse(JSON.stringify(s))` on a well-formed `AppState`:
a structural clone rebuilding the triple. -/
def deepCopy (s : AppState) : AppState :=
  { transactions := s.transactions, clients := s.clients, opportunities := s.opportunities }

/-- `handleCreateSnapshot` from the source: trim the name, alert and bail
if empty, otherwise push a snapshot with id `snap_${Date.now()}`,
timestamp `Date.now()`, and a deep copy of the live state, then persist
the collection. -/
def handleCreateSnapshot (m : GestorModel) (nameInput : String) (now : Nat) : GestorModel :=
  let name := jsTrim nameInput
  if name = "" then m
  else
    let snap : Snapshot :=
      { id := "snap_" ++ toString now, name := name, timestamp := now, data := deepCopy m.state }
    saveSnapshots { m with snapshots := m.snapshots ++ [snap] }

/-- `handleRestoreSnapshot` from the source: look the id up with `find`;
on a miss the code silently returns (no alert, nothing changed); on a hit
and user confirmation, replace the live state with a deep copy of the
snapshot's data and persist it. -/
def handleRestoreSnapshot (m : GestorModel) (id : String) (confirmed : Bool) :
    GestorModel × Option AppError :=
  match m.snapshots.find? (fun s => s.id == id) with
  | none => (m, none)
  | some snapshot =>
      if confirmed then (saveState { m with state := deepCopy snapshot.data }, none)
      else (m, none)

/-- `handleDeleteSnapshot` from the source: look the id up with `find`;
on a miss the code silently returns; on a hit and confirmation, filter
the snapshot out and persist the collection. -/
def handleDeleteSnapshot (m : GestorModel) (id : String) (confirmed : Bool) :
    GestorModel × Option AppError :=
  match m.snapshots.find? (fun s => s.id == id) with
  | none => (m, none)
  | some _ =>
      if confirmed then
        (saveSnapshots { m with snapshots := m.snapshots.filter (fun s => s.id != id) }, none)
      else (m, none)

/-- `handleDeleteClient` from the source: if any opportunity references
the client, alert ("Não é possível excluir um cliente que possui
oportunidades associadas" — the spec's `ReferentialIntegrityError`) and
change nothing; otherwise, on confirmation, remove the client via
`setState`. -/
def handleDeleteClient (m : GestorModel) (id : String) (confirmed : Bool) :
    GestorModel × Option AppError :=
  let clientOpportunities := m.state.opportunities.filter (fun op => op.clientId == id)
  if clientOpportunities.length > 0 then
    (m, some AppError.referentialIntegrityError)
  else if confirmed then
    (setState m (fun prev =>
      { prev with clients := prev.clients.filter (fun c => c.id != id) }), none)
  else (m, none)

/-- `handleTransactionFormSubmit` from the source. The form fields arrive
as the description, the numeric value the amount field parsed to, the
type, and the date; `editingTransactionId` selects edit vs create. The
code rejects (alert) when description, amount string or date is empty;
otherwise `signedAmount = type === 'receita' ? amount : -amount`, and
either the matching transaction is replaced or a new one with id
`tx_${Date.now()}` is appended, via `setState`. -/
def handleTransactionFormSubmit (m : GestorModel) (editingTransactionId : Option String)
    (description : String) (amount : Int) (txType : TxType) (date : String) (now : Nat) :
    GestorModel × Option AppError :=
  if description = "" || date = "" then (m, some AppError.validationError)
  else
    let signedAmount := if txType == TxType.receita then amount else -amount
    match editingTransactionId with
    | some eid =>
        (setState m (fun prev =>
          { prev with transactions := prev.transactions.map (fun tx =>
              if tx.id == eid then
                { tx with description := description, amount := signedAmount,
                          date := date, type := txType }
              else tx) }), none)
    | none =>
        let newTransaction : Transaction :=
          { id := "tx_" ++ toString now, description := description,
            amount := signedAmount, date := date, type := txType }
        (setState m (fun prev =>
          { prev with transactions := prev.transactions ++ [newTransaction] }), none)

/-- Result record of `calculateTotals`: the all-time totals and the
(possibly month-scoped) totals. -/
structure TotalsResult where
  totalBalance : Int
  totalRevenue : Int
  totalExpenses : Int
  monthBalance : Int
  monthRevenue : Int
  monthExpenses : Int
deriving DecidableEq, Repr

/-- `calculateTotals` from the source: the scope is the transactions whose
date starts with the month key when one is given, otherwise all
transactions; each figure is a `reduce((acc, t) => acc + t.amount, 0)`
over the scope, with revenue/expense figures first filtered by type. The
all-time figures always range over the full transaction list. -/
def calculateTotals (state : AppState) (month : Option String) : TotalsResult :=
  let transactionsToConsider : List Transaction :=
    match month with
    | some mo => state.transactions.filter (fun t => jsStartsWith t.date mo)
    | none => state.transactions
  { totalBalance := state.transactions.foldl (fun acc t => acc + t.amount) 0
    totalRevenue := (state.transactions.filter
      (fun t => t.type == TxType.receita)).foldl (fun acc t => acc + t.amount) 0
    totalExpenses := (state.transactions.filter
      (fun t => t.type == TxType.despesa)).foldl (fun acc t => acc + t.amount) 0
    monthBalance := transactionsToConsider.foldl (fun acc t => acc + t.amount) 0
    monthRevenue := (transactionsToConsider.filter
      (fun t => t.type == TxType.receita)).foldl (fun acc t => acc + t.amount) 0
    monthExpenses := (transactionsToConsider.filter
      (fun t => t.type == TxType.despesa)).foldl (fun acc t => acc + t.amount) 0 }

/-- The parsed JSON document handed to `loadBackup`, restricted to the
shape the claims exercise: each of the three top-level keys is either
absent (`none`) or present with its array value. The code's validity
check `'transactions' in newState && 'clients' in newState &&
'opportunities' in newState` is key presence, i.e. `isSome` of the
fields. -/
structure BackupDoc where
  transactions : Option (List Transaction)
  clients : Option (List Client)
  opportunities : Option (List Opportunity)
deriving DecidableEq, Repr

/-- `saveBackup` from the source: `JSON.stringify(this.state, null, 2)`
downloads a document with exactly the three collections — viewed
structurally, a `BackupDoc` with all three keys present. -/
def saveBackup (s : AppState) : BackupDoc :=
  { transactions := some s.transactions, clients := some s.clients,
    opportunities := some s.opportunities }

/-- `loadBackup` from the source, after the file has parsed as JSON:
if all three keys are present, then upon user confirmation the live
state is replaced by the parsed document and persisted; if any key is
missing, the code alerts "Arquivo de backup inválido" (the spec's
`ValidationError`) and changes nothing. -/
def loadBackup (m : GestorModel) (doc : BackupDoc) (confirmed : Bool) :
    GestorModel × Option AppError :=
  match doc.transactions, doc.clients, doc.opportunities with
  | some t, some c, some o =>
      if confirmed then
        (saveState { m with state := { transactions := t, clients := c, opportunities := o } }, none)
      else (m, none)
  | _, _, _ => (m, some AppError.validationError)

/-- The confirm-click of `showWipeDataConfirmation` from the source: the
confirm button is enabled only while the input equals `ZERAR`; clicking
it resets the state to the initial empty state, persists it, clears the
snapshot collection, and persists that too. A click with any other input
is impossible (button disabled), hence a no-op. -/
def wipeDataConfirm (m : GestorModel) (input : String) : GestorModel :=
  if input = "ZERAR" then
    saveSnapshots { (saveState { m with state := getInitialState }) with snapshots := [] }
  else m

/-- The empty model: empty state, no snapshots, empty storage. -/
def emptyModel : GestorModel :=
  { state := getInitialState, snapshots := [], storage := { appStateKey := none, snapshotsKey := none } }

/-- Sign/type agreement invariant for a stored transaction: revenue
amounts are non-negative, expense amounts non-positive. -/
def signTypeAgree (tx : Transaction) : Prop :=
  (tx.type = TxType.receita → 0 ≤ tx.amount) ∧ (tx.type = TxType.despesa → tx.amount ≤ 0)

instance (tx : Transaction) : Decidable (signTypeAgree tx) := by
  unfold signTypeAgree
  infer_instance

/-- The backup document parsed from the JSON text with only a clients key,
the spec's example of an invalid backup. -/
def clientsOnlyDoc : BackupDoc :=
  { transactions := none, clients := some [], opportunities := none }

/-- A sample client used in concrete instances. -/
def clientExample : Client :=
  { id := "c1", name := "Ana", company := "ACME", email := "ana@acme.com", phone := "11999" }

/-- A sample opportunity referencing client c1. -/
def oppExample : Opportunity :=
  { id := "o1", title := "Projeto", value := 10, clientId := "c1",
    stage := OpportunityStage.lead }

/-- A model whose only client is referenced by one opportunity. -/
def mBlocked : GestorModel :=
  { state := { transactions := [], clients := [clientExample], opportunities := [oppExample] },
    snapshots := [],
    storage := { appStateKey := none, snapshotsKey := none } }

/-- A model whose only client has no referencing opportunity. -/
def mFree : GestorModel :=
  { state := { transactions := [], clients := [clientExample], opportunities := [] },
    snapshots := [],
    storage := { appStateKey := none, snapshotsKey := none } }

/-- A sample revenue transaction used by an intervening updater. -/
def txExtraExample : Transaction :=
  { id := "tx_9", description := "venda", amount := 10, date := "2024-06-01",
    type := TxType.receita }

/-- A concrete sequence of intervening updaters used in the snapshot
round-trip instance. -/
def upsExample : List (AppState → AppState) :=
  [fun s => { s with clients := [clientExample] },
   fun s => { s with transactions := s.transactions ++ [txExtraExample] }]

/-- The transaction of the spec's worked example: an expense of -50
dated 2024-05-10. -/
def exampleTx : Transaction :=
  { id := "t1", description := "conta", amount := -50, date := "2024-05-10",
    type := TxType.despesa }

/-- The spec's worked example state: one expense transaction of -50 dated
2024-05-10. -/
def exampleState : AppState :=
  { transactions := [exampleTx], clients := [], opportunities := [] }

/-- The transaction stored by the form handler for the entry -5 with
type receita at instant 7. -/
def txNegRevenue : Transaction :=
  { id := "tx_7", description := "venda", amount := -5, date := "2024-01-01",
    type := TxType.receita }

/-- The transaction stored by the form handler for the entry -5 with
type despesa at instant 8. -/
def txPosExpense : Transaction :=
  { id := "tx_8", description := "gasto", amount := 5, date := "2024-01-01",
    type := TxType.despesa }

/- Helper lemmas shared by the claim theorems. -/

/-- A fold of `setState` over a list of updaters never touches the
snapshot collection. -/
theorem foldl_setState_snapshots (ups : List (AppState → AppState)) (m : GestorModel) :
    (ups.foldl setState m).snapshots = m.snapshots := by
  induction ups generalizing m with
  | nil => rfl
  | cons u us ih =>
      rw [List.foldl_cons, ih]
      rfl

/-- Folding `reduce((acc, t) => acc + t.amount, c)` equals `c` plus the sum
of the amounts. -/
theorem foldl_add_amount (l : List Transaction) (c : Int) :
    l.foldl (fun acc t => acc + t.amount) c = c + (l.map (fun t => t.amount)).sum := by
  induction l generalizing c with
  | nil => simp
  | cons t ts ih => simp [List.foldl_cons, ih, add_assoc]

/-- Claim C1: for every initial model and every finite sequence of updater
functions passed to `setState`, the state held afterwards equals the
result of applying the updaters in order to the initial state. (In this
pure embedding an updater cannot mutate its input in place, so the
claim's proviso holds by construction.) -/
theorem store_apply_sequence (m : GestorModel) (ups : List (AppState → AppState)) :
    (ups.foldl setState m).state = ups.foldl (fun s u => u s) m.state := by
  induction ups generalizing m with
  | nil => rfl
  | cons u us ih =>
      rw [List.foldl_cons, List.foldl_cons, ih]
      rfl

/-- Claim C2: a parsed backup document missing at least one of the
top-level keys `transactions`, `clients`, `opportunities` is rejected
with a ValidationError, and the whole model — live state, snapshots and
storage — is left unchanged: no partial import, no defaulting. -/
theorem backup_missing_key_rejected (m : GestorModel) (doc : BackupDoc) (confirmed : Bool)
    (h : doc.transactions = none ∨ doc.clients = none ∨ doc.opportunities = none) :
    loadBackup m doc confirmed = (m, some AppError.validationError) := by
  obtain ⟨t, c, o⟩ := doc
  cases t <;> cases c <;> cases o <;> simp_all [loadBackup]

/-- Witness for C2 at the document parsed from the text with only a
clients key, the spec's example of an invalid backup. -/
theorem backup_missing_key_witness :
    clientsOnlyDoc.transactions = none ∧
    loadBackup emptyModel clientsOnlyDoc true = (emptyModel, some AppError.validationError) :=
  ⟨rfl, backup_missing_key_rejected emptyModel clientsOnlyDoc true (Or.inl rfl)⟩

/-- Claim C3: importing the document produced by exporting any state,
with the user confirmation given, reproduces exactly that state in the
live Store and raises no error: import(export(state)) = state. -/
theorem backup_export_import_roundtrip (m : GestorModel) (s : AppState) :
    (loadBackup m (saveBackup s) true).1.state = s ∧
    (loadBackup m (saveBackup s) true).2 = none := by
  exact ⟨rfl, rfl⟩

/-- Claim C4: creating a snapshot of the current state (non-empty trimmed
name, fresh id) and restoring it later via its id reproduces exactly the
state at creation time, no matter which updater sequence mutated the live
state in between; the restore leaves the snapshot collection itself
untouched. (The deep copies of the source are modelled by `deepCopy`; in
this pure embedding the no-aliasing part of the claim holds by
construction.) -/
theorem snapshot_create_restore_roundtrip (m : GestorModel) (nameInput : String) (now : Nat)
    (ups : List (AppState → AppState))
    (hname : jsTrim nameInput ≠ "")
    (hfresh : m.snapshots.find? (fun s => s.id == "snap_" ++ toString now) = none) :
    (handleRestoreSnapshot (ups.foldl setState (handleCreateSnapshot m nameInput now))
        ("snap_" ++ toString now) true).1.state = m.state ∧
    (handleRestoreSnapshot (ups.foldl setState (handleCreateSnapshot m nameInput now))
        ("snap_" ++ toString now) true).1.snapshots
      = (ups.foldl setState (handleCreateSnapshot m nameInput now)).snapshots := by
  have hcreate : handleCreateSnapshot m nameInput now
      = saveSnapshots { m with snapshots := m.snapshots ++
          [{ id := "snap_" ++ toString now, name := jsTrim nameInput, timestamp := now,
             data := deepCopy m.state }] } := by
    unfold handleCreateSnapshot
    simp [hname]
  have hsnaps : (ups.foldl setState (handleCreateSnapshot m nameInput now)).snapshots
      = m.snapshots ++
          [{ id := "snap_" ++ toString now, name := jsTrim nameInput, timestamp := now,
             data := deepCopy m.state }] := by
    rw [foldl_setState_snapshots, hcreate]
    rfl
  have hfind : ((ups.foldl setState (handleCreateSnapshot m nameInput now)).snapshots).find?
      (fun s => s.id == "snap_" ++ toString now)
      = some { id := "snap_" ++ toString now, name := jsTrim nameInput, timestamp := now,
               data := deepCopy m.state } := by
    rw [hsnaps]
    simp [List.find?_append, hfresh]
  unfold handleRestoreSnapshot
  rw [hfind]
  exact ⟨rfl, rfl⟩

/-- Witness for C4: on the empty model, create snapshot "Q1" at instant 5,
mutate the live state twice, restore "snap_5": the live state is again the
empty state. -/
theorem snapshot_roundtrip_witness :
    jsTrim "Q1" ≠ "" ∧
    emptyModel.snapshots.find? (fun s => s.id == "snap_" ++ toString 5) = none ∧
    (handleRestoreSnapshot (upsExample.foldl setState (handleCreateSnapshot emptyModel "Q1" 5))
        ("snap_" ++ toString 5) true).1.state = emptyModel.state :=
  ⟨by decide, rfl,
   (snapshot_create_restore_roundtrip emptyModel "Q1" 5 upsExample (by decide) rfl).1⟩

/-- Claim C5: deleting a client some opportunity references fails with a
ReferentialIntegrityError and changes nothing at all; deleting a client
no opportunity references succeeds with no error, removes exactly the
records with that client id, and leaves the opportunities (and
transactions) untouched. -/
theorem client_delete_referential_integrity (m : GestorModel) (id : String) :
    (m.state.opportunities.filter (fun op => op.clientId == id) ≠ [] →
        handleDeleteClient m id true = (m, some AppError.referentialIntegrityError)) ∧
    (m.state.opportunities.filter (fun op => op.clientId == id) = [] →
        (handleDeleteClient m id true).2 = none ∧
        (handleDeleteClient m id true).1.state.clients
          = m.state.clients.filter (fun c => c.id != id) ∧
        (handleDeleteClient m id true).1.state.opportunities = m.state.opportunities ∧
        (handleDeleteClient m id true).1.state.transactions = m.state.transactions) := by
  constructor
  · intro h
    have hlen : 0 < (m.state.opportunities.filter (fun op => op.clientId == id)).length :=
      List.length_pos.mpr h
    unfold handleDeleteClient
    simp [hlen]
  · intro h
    unfold handleDeleteClient
    simp [h, setState, saveState]

/-- Witness for C5: in `mBlocked` the delete of client c1 is blocked and
changes nothing; in `mFree` it succeeds, removing c1. -/
theorem client_delete_witness :
    handleDeleteClient mBlocked "c1" true = (mBlocked, some AppError.referentialIntegrityError) ∧
    (handleDeleteClient mFree "c1" true).2 = none ∧
    (handleDeleteClient mFree "c1" true).1.state.clients
      = mFree.state.clients.filter (fun c => c.id != "c1") :=
  ⟨(client_delete_referential_integrity mBlocked "c1").1 (by decide),
   ((client_delete_referential_integrity mFree "c1").2 (by decide)).1,
   ((client_delete_referential_integrity mFree "c1").2 (by decide)).2.1⟩

/-- Claim C6: every month-scoped figure of `calculateTotals` is the sum of
the signed amounts of the transactions whose date has the month key as
its YYYY-MM prefix (revenue and expense figures additionally filtered by
type, expenses accumulating as a negative magnitude), the all-time
figures always range over the full transaction list, and on the spec's
worked example the month "2024-05" totals are (-50, 0, -50) while the
month "2024-06" totals are (0, 0, 0). -/
theorem totals_correct :
    (∀ (st : AppState) (mo : String),
      (calculateTotals st (some mo)).monthBalance
        = ((st.transactions.filter (fun t => jsStartsWith t.date mo)).map
            (fun t => t.amount)).sum ∧
      (calculateTotals st (some mo)).monthRevenue
        = (((st.transactions.filter (fun t => jsStartsWith t.date mo)).filter
            (fun t => t.type == TxType.receita)).map (fun t => t.amount)).sum ∧
      (calculateTotals st (some mo)).monthExpenses
        = (((st.transactions.filter (fun t => jsStartsWith t.date mo)).filter
            (fun t => t.type == TxType.despesa)).map (fun t => t.amount)).sum ∧
      (calculateTotals st (some mo)).totalBalance
        = (st.transactions.map (fun t => t.amount)).sum ∧
      (calculateTotals st (some mo)).totalRevenue
        = ((st.transactions.filter (fun t => t.type == TxType.receita)).map
            (fun t => t.amount)).sum ∧
      (calculateTotals st (some mo)).totalExpenses
        = ((st.transactions.filter (fun t => t.type == TxType.despesa)).map
            (fun t => t.amount)).sum) ∧
    calculateTotals exampleState (some "2024-05")
      = { totalBalance := -50, totalRevenue := 0, totalExpenses := -50,
          monthBalance := -50, monthRevenue := 0, monthExpenses := -50 } ∧
    calculateTotals exampleState (some "2024-06")
      = { totalBalance := -50, totalRevenue := 0, totalExpenses := -50,
          monthBalance := 0, monthRevenue := 0, monthExpenses := 0 } := by
  refine ⟨fun st mo => ?_, by decide, by decide⟩
  simp [calculateTotals, foldl_add_amount]

/-- Claim C7 (evaluation at the failing input): two snapshot creations
falling in the same millisecond — `Date.now()` returning 5 for both —
produce two snapshots that share the id "snap_5": the collection's id
list has a duplicate, so id generation is not collision-resistant within
a session. -/
theorem snapshot_id_collision :
    ((handleCreateSnapshot (handleCreateSnapshot emptyModel "A" 5) "B" 5).snapshots.map
        (fun s => s.id)) = ["snap_5", "snap_5"] ∧
    ¬ ((handleCreateSnapshot (handleCreateSnapshot emptyModel "A" 5) "B" 5).snapshots.map
        (fun s => s.id)).Nodup := by
  decide

/-- Claim C8 (counterexample): restoring or deleting the unknown id
"missing" on the empty model signals no error value at all — in the
source both handlers silently return on a failed lookup — so neither
operation fails with a NotFoundError as the claim states. -/
theorem restore_delete_silent_counterexample :
    (handleRestoreSnapshot emptyModel "missing" true).2 = none ∧
    (handleDeleteSnapshot emptyModel "missing" true).2 = none ∧
    (none : Option AppError) ≠ some AppError.notFoundError := by
  decide

/-- Claim C8 (amended): for an id matching no snapshot in the collection,
restore and delete are silent no-ops: they signal no error and return the
model — live state, snapshot collection and storage — unchanged (atomic
failure). -/
theorem restore_delete_missing_noop (m : GestorModel) (id : String) (confirmed : Bool)
    (h : m.snapshots.find? (fun s => s.id == id) = none) :
    handleRestoreSnapshot m id confirmed = (m, none) ∧
    handleDeleteSnapshot m id confirmed = (m, none) := by
  unfold handleRestoreSnapshot handleDeleteSnapshot
  rw [h]
  exact ⟨rfl, rfl⟩

/-- Witness for the amended C8 on the empty model and the id "absent". -/
theorem restore_delete_missing_witness :
    emptyModel.snapshots.find? (fun s => s.id == "absent") = none ∧
    handleRestoreSnapshot emptyModel "absent" false = (emptyModel, none) :=
  ⟨rfl, (restore_delete_missing_noop emptyModel "absent" false rfl).1⟩

/-- Claim C9 (evaluation at the failing input): the amount field is a
number input with no lower bound, so the form path accepts the entry -5;
submitting it with type receita stores a transaction with type receita
and amount -5, violating the sign/type agreement, and submitting it with
type despesa stores amount +5 — contradicting the source's own comment
that the negation guarantees expense values are negative. -/
theorem transaction_negative_entry_breaks_sign :
    (handleTransactionFormSubmit emptyModel none "venda" (-5) TxType.receita
        "2024-01-01" 7).1.state.transactions = [txNegRevenue] ∧
    ¬ signTypeAgree txNegRevenue ∧
    (handleTransactionFormSubmit emptyModel none "gasto" (-5) TxType.despesa
        "2024-01-01" 8).1.state.transactions = [txPosExpense] := by
  decide

/-- Claim C10: confirming the wipe with the exact input "ZERAR" replaces
the live state by the canonical empty triple, clears the snapshot
collection, and persists both — the empty state under the state key and
the empty collection under the snapshot key. -/
theorem wipe_data_clears_all (m : GestorModel) :
    wipeDataConfirm m "ZERAR" =
      { state := { transactions := [], clients := [], opportunities := [] },
        snapshots := [],
        storage := { appStateKey := some { transactions := [], clients := [], opportunities := [] },
                     snapshotsKey := some [] } } := by
  rfl

end Gestor
